import Mathlib

/-!
# Etcd init task of the Karmada operator

A shallow embedding of `operator/pkg/tasks/init/etcd.go`: the task tree built by
`NewEtcdTask` and its three run functions `runEtcd`, `runDeployEtcd` and
`runWaitEtcd`.

The run functions are effectful Go code.  They are embedded as state-passing
functions over a `World`: the state of the target cluster together with the
list of calls made so far to code outside the file (the installer
`etcd.EnsureKarmadaEtcd`, the waiter of package `apiclient`, and `klog`).
What those collaborators answer is a parameter (`Env`), so every theorem
holds for every installer and every waiter.  The installer is handed the
pointer `Etcd.Local` unchecked, nil or not, and may panic instead of
returning; a panic ends the run function and the execution of the tree.
-/

namespace Karmada

/-! ## Go values -/

/-- A non-nil Go `error`, as far as this file builds or inspects one:
`errorString` is what `errors.New` makes, `wrapError` is what `fmt.Errorf`
makes of a format holding one `%w` verb (its message and the wrapped error). -/
inductive GoError where
  | errorString (s : String)
  | wrapError (msg : String) (err : GoError)
  deriving DecidableEq, Repr

/-- The method `Error()` of a Go error: its message. -/
def GoError.Error : GoError → String
  | .errorString s => s
  | .wrapError msg _ => msg

/-- The function `errors.Unwrap`: the wrapped error, when there is one. -/
def GoError.Unwrap : GoError → Option GoError
  | .errorString _ => none
  | .wrapError _ err => some err

/-- A value of Go type `error`: `none` is `nil`. -/
abbrev error := Option GoError

/-- The function `errors.New`. -/
def errorsNew (text : String) : GoError := .errorString text

/-- The call `fmt.Errorf(lead + "%w", err)` for a non-nil `err`: the message is
`lead` followed by `err.Error()`, and the result wraps `err`. -/
def fmtErrorf (lead : String) (err : GoError) : GoError :=
  .wrapError (lead ++ err.Error) err

/-- A `time.Duration`: a count of nanoseconds. -/
abbrev Duration := Int

/-- The constant `time.Second`. -/
def Second : Duration := 1000000000

/-- A `labels.Set`: label keys with their values. -/
structure LabelSet where
  pairs : List (String × String)
  deriving DecidableEq, Repr

/-- The method `labels.Set.String`: the entries rendered `key=value`, sorted and
joined with commas. -/
def LabelSet.String (ls : LabelSet) : String :=
  ",".intercalate
    ((ls.pairs.map fun kv => kv.1 ++ "=" ++ kv.2).insertionSort fun a b => a ≤ b)

/-! ## Types declared elsewhere in the repository -/

/-- Modelled from the spec: the cluster client handle of the run context
(`clientset.Interface`, declared outside this file), used here only as a value
handed on to the installer and the waiter. -/
structure Clientset where
  handle : Nat
  deriving DecidableEq, Repr

/-- The client configuration `rest.Config` of the Kubernetes client library,
used here only as a value handed on to the waiter. -/
structure RestConfig where
  Host : String
  deriving DecidableEq, Repr

/-- Modelled from the spec: the desired spec of a locally installed etcd
(`LocalEtcd`, declared outside this file), handed unchanged to the installer. -/
structure LocalEtcd where
  Replicas : Option Int
  Image : String
  deriving DecidableEq, Repr

/-- Modelled from the spec: the reference to an externally managed etcd
(`ExternalEtcd`, declared outside this file). -/
structure ExternalEtcd where
  Endpoints : List String
  deriving DecidableEq, Repr

/-- Modelled from the spec: the component spec of etcd (`Etcd`, declared outside
this file).  The source reads two pointer fields, `Local` and `External`, either
of which may be nil. -/
structure Etcd where
  Local : Option LocalEtcd
  External : Option ExternalEtcd
  deriving DecidableEq, Repr

/-- Modelled from the spec: the component configuration (`KarmadaComponents`,
declared outside this file); the source reads its pointer field `Etcd`. -/
structure KarmadaComponents where
  Etcd : Option Etcd
  deriving DecidableEq, Repr

/-- Modelled from the spec: the capability set `InitData` of the run context
(declared outside this file), as the values its accessors return:
`GetName()`, `GetNamespace()`, `RemoteClient()`, `ControlplaneConfig()` and
`Components()` (a pointer, possibly nil). -/
structure InitData where
  GetName : String
  GetNamespace : String
  RemoteClient : Clientset
  ControlplaneConfig : Option RestConfig
  Components : Option KarmadaComponents
  deriving DecidableEq, Repr

/-- A `workflow.RunData` value (an empty interface): either a value that
implements `InitData`, or any other value, of which only the fact that the type
assertion `r.(InitData)` fails matters. -/
inductive RunData where
  | initData (data : InitData)
  | other (tag : String)
  deriving DecidableEq, Repr

/-- Modelled from the spec: the waiter `apiclient.NewKarmadaWaiter` builds
(declared outside this file): the three values it was built from. -/
structure KarmadaWaiter where
  karmadaConfig : Option RestConfig
  client : Clientset
  timeout : Duration
  deriving DecidableEq, Repr

/-- Modelled from the spec: the constructor `apiclient.NewKarmadaWaiter`
(declared outside this file). -/
def NewKarmadaWaiter (config : Option RestConfig) (client : Clientset)
    (timeout : Duration) : KarmadaWaiter :=
  { karmadaConfig := config, client := client, timeout := timeout }

/-! ## The world the run functions act on -/

/-- The value logged under the key `"karmada"`: `klog.KObj(data)` (the name and
namespace of the object) or a plain string. -/
inductive LogValue where
  | KObj (name ns : String)
  | str (s : String)
  deriving DecidableEq, Repr

/-- A call out of this file, with its arguments. -/
inductive Call where
  | InfoS (v : Nat) (msg : String) (key : String) (value : LogValue)
  | EnsureKarmadaEtcd (client : Clientset) (cfg : Option LocalEtcd) (name ns : String)
  | NewKarmadaWaiter (config : Option RestConfig) (client : Clientset) (timeout : Duration)
  | WaitForSomePods (waiter : KarmadaWaiter) (label ns : String) (podNum : Int)
  deriving DecidableEq, Repr

/-- The state a run function acts on: the cluster (of any type `σ`) and the
calls made so far, oldest first. -/
structure World (σ : Type) where
  cluster : σ
  calls : List Call

/-- Append one call to the record. -/
def World.record {σ : Type} (w : World σ) (c : Call) : World σ :=
  { w with calls := w.calls ++ [c] }

/-- How a Go function of result type `error` ends: it returns, or it panics. -/
inductive Outcome where
  | ret (err : error)
  | panic (msg : String)
  deriving DecidableEq, Repr

/-- Everything the file uses that is declared outside it: the package variables
`componentBeReadyTimeout` and `etcdLabels`, and the behaviour of the two
collaborators, each a function of the cluster state and the call's arguments
that yields how the call ends and the next cluster state.  The installer ends
by returning an error value or by panicking (it is handed `Etcd.Local` as
it is, nil included); the waiter ends by returning an error value. -/
structure Env (σ : Type) where
  componentBeReadyTimeout : Duration
  etcdLabels : LabelSet
  EnsureKarmadaEtcd : σ → Clientset → Option LocalEtcd → String → String → Outcome × σ
  WaitForSomePods : σ → KarmadaWaiter → String → String → Int → error × σ

/-- The runtime panic of reading a field through a nil pointer. -/
def nilDereference : String :=
  "runtime error: invalid memory address or nil pointer dereference"

/-- The number of calls to the installer `etcd.EnsureKarmadaEtcd` in a record. -/
def installerCalls (cs : List Call) : Nat :=
  cs.countP fun c => match c with
    | .EnsureKarmadaEtcd .. => true
    | _ => false

/-- The number of calls to the waiter (`NewKarmadaWaiter` or `WaitForSomePods`)
in a record. -/
def waiterCalls (cs : List Call) : Nat :=
  cs.countP fun c => match c with
    | .NewKarmadaWaiter .. => true
    | .WaitForSomePods .. => true
    | _ => false

/-- The number of calls to `WaitForSomePods` in a record. -/
def waitForSomePodsCalls (cs : List Call) : Nat :=
  cs.countP fun c => match c with
    | .WaitForSomePods .. => true
    | _ => false

/-! ## The run functions -/

/-- The function `runEtcd`. -/
def runEtcd {σ : Type} (_env : Env σ) (r : RunData) (w : World σ) : Outcome × World σ :=
  match r with
  | .other _ => (.ret (some (errorsNew "etcd task invoked with an invalid data struct")), w)
  | .initData data =>
    (.ret none,
      w.record (.InfoS 4 "[etcd] Running etcd task" "karmada"
        (.KObj data.GetName data.GetNamespace)))

/-- The function `runDeployEtcd`. -/
def runDeployEtcd {σ : Type} (env : Env σ) (r : RunData) (w : World σ) :
    Outcome × World σ :=
  match r with
  | .other _ =>
    (.ret (some (errorsNew "deploy-etcd task invoked with an invalid data struct")), w)
  | .initData data =>
    match data.Components with
    | none => (.panic nilDereference, w)
    | some cfg =>
      match cfg.Etcd with
      | none => (.panic nilDereference, w)
      | some etcd =>
        if etcd.External ≠ none then
          (.ret none,
            w.record (.InfoS 2 "[etcd] use external etcd, skip install etcd job" "karmada"
              (.str data.GetName)))
        else
          let res := env.EnsureKarmadaEtcd w.cluster data.RemoteClient etcd.Local
            data.GetName data.GetNamespace
          let w1 : World σ :=
            { cluster := res.2,
              calls := w.calls ++ [.EnsureKarmadaEtcd data.RemoteClient etcd.Local
                data.GetName data.GetNamespace] }
          match res.1 with
          | .panic msg => (.panic msg, w1)
          | .ret (some err) =>
            (.ret (some (fmtErrorf "failed to install etcd component, err: " err)), w1)
          | .ret none =>
            (.ret none,
              w1.record (.InfoS 2 "[deploy-etcd] Successfully installed etcd component"
                "karmada" (.KObj data.GetName data.GetNamespace)))

/-- The function `runWaitEtcd`. -/
def runWaitEtcd {σ : Type} (env : Env σ) (r : RunData) (w : World σ) :
    Outcome × World σ :=
  match r with
  | .other _ =>
    (.ret (some (errorsNew "wait-etcd task invoked with an invalid data struct")), w)
  | .initData data =>
    let waiter := NewKarmadaWaiter data.ControlplaneConfig data.RemoteClient
      env.componentBeReadyTimeout
    let res := env.WaitForSomePods w.cluster waiter env.etcdLabels.String data.GetNamespace 1
    let w1 : World σ :=
      { cluster := res.2,
        calls := w.calls ++
          [.NewKarmadaWaiter data.ControlplaneConfig data.RemoteClient
             env.componentBeReadyTimeout,
           .WaitForSomePods waiter env.etcdLabels.String data.GetNamespace 1] }
    match res.1 with
    | some err =>
      (.ret (some (fmtErrorf "waiting for karmada-etcd to ready timeout, err: " err)), w1)
    | none =>
      (.ret none,
        w1.record (.InfoS 2 "[wait-etcd] the etcd pods is ready" "karmada"
          (.KObj data.GetName data.GetNamespace)))

/-! ## The task tree -/

/-- Modelled from the spec: the type `workflow.Task` (declared outside this
file): a name, a run function, the flag `RunSubTasks` and the ordered
children `Tasks`. -/
inductive Task (σ : Type) where
  | mk (Name : String) (Run : Env σ → RunData → World σ → Outcome × World σ)
      (RunSubTasks : Bool) (Tasks : List (Task σ))

/-- The field `Name` of a task. -/
def Task.Name {σ : Type} : Task σ → String
  | .mk n _ _ _ => n

/-- The field `Run` of a task. -/
def Task.Run {σ : Type} : Task σ → Env σ → RunData → World σ → Outcome × World σ
  | .mk _ r _ _ => r

/-- The field `RunSubTasks` of a task. -/
def Task.RunSubTasks {σ : Type} : Task σ → Bool
  | .mk _ _ b _ => b

/-- The field `Tasks` of a task. -/
def Task.Tasks {σ : Type} : Task σ → List (Task σ)
  | .mk _ _ _ ts => ts

/-- The function `NewEtcdTask`. -/
def NewEtcdTask {σ : Type} : Task σ :=
  .mk "Etcd" runEtcd true
    [ .mk "deploy-etcd" runDeployEtcd false [],
      .mk "wait-etcd" runWaitEtcd false [] ]

mutual
/-- Modelled from the spec: the executor of the task tree (section 4.1; its
code is outside this file).  It runs the task's function; an error is returned
at once and no child runs; on success, when `RunSubTasks` is set, the children
run in declaration order.  A panic ends the execution. -/
def Execute {σ : Type} (env : Env σ) : Task σ → RunData → World σ → Outcome × World σ
  | .mk _ run runSubTasks tasks, r, w =>
    match run env r w with
    | (.ret none, w1) => if runSubTasks then ExecuteAll env tasks r w1 else (.ret none, w1)
    | res => res
/-- Modelled from the spec: the children of a task run one after the other in
declaration order; the first failure ends the run and is returned unchanged. -/
def ExecuteAll {σ : Type} (env : Env σ) : List (Task σ) → RunData → World σ → Outcome × World σ
  | [], _, w => (.ret none, w)
  | t :: ts, r, w =>
    match Execute env t r w with
    | (.ret none, w1) => ExecuteAll env ts r w1
    | res => res
end

mutual
/-- The invariant of the data model on a task tree: a task whose `RunSubTasks`
is set has at least one child, and so on down the tree. -/
def Task.shapeOk {σ : Type} : Task σ → Bool
  | .mk _ _ runSubTasks tasks => (!runSubTasks || !tasks.isEmpty) && Task.shapeOkAll tasks
/-- The invariant `Task.shapeOk` on every task of a list. -/
def Task.shapeOkAll {σ : Type} : List (Task σ) → Bool
  | [] => true
  | t :: ts => Task.shapeOk t && Task.shapeOkAll ts
end

/-! ## Concrete inputs -/

/-- An environment over a cluster that counts the installs applied to it: the
installer succeeds, the waiter finds the pods ready. -/
def goodEnv : Env Nat :=
  { componentBeReadyTimeout := 120 * Second,
    etcdLabels := { pairs := [("karmada-app", "etcd")] },
    EnsureKarmadaEtcd := fun c _ _ _ _ => (.ret none, c + 1),
    WaitForSomePods := fun c _ _ _ _ => (none, c) }

/-- An environment whose installer fails. -/
def failingInstallEnv : Env Nat :=
  { goodEnv with
    EnsureKarmadaEtcd := fun c _ _ _ _ => (.ret (some (errorsNew "connection refused")), c) }

/-- An environment whose installer panics when it is handed a nil spec, and
installs otherwise. -/
def nilSpecPanicEnv : Env Nat :=
  { goodEnv with
    EnsureKarmadaEtcd := fun c _ cfg _ _ =>
      match cfg with
      | none => (.panic nilDereference, c)
      | some _ => (.ret none, c + 1) }

/-- An environment whose waiter gives up at its deadline of two minutes. -/
def timedOutEnv : Env Nat :=
  { goodEnv with
    WaitForSomePods := fun c _ _ _ _ => (some (errorsNew "context deadline exceeded"), c) }

/-- A local etcd of three replicas. -/
def localSpec : LocalEtcd := { Replicas := some 3, Image := "registry.k8s.io/etcd" }

/-- An external etcd. -/
def externalSpec : ExternalEtcd := { Endpoints := ["https://etcd.example:2379"] }

/-- A context that installs etcd locally. -/
def localData : InitData :=
  { GetName := "demo", GetNamespace := "karmada-system", RemoteClient := { handle := 7 },
    ControlplaneConfig := some { Host := "https://demo.karmada-system.svc:5443" },
    Components := some { Etcd := some { Local := some localSpec, External := none } } }

/-- A context that uses an external etcd. -/
def externalData : InitData :=
  { localData with
    Components := some { Etcd := some { Local := none, External := some externalSpec } } }

/-- A context that sets both the local and the external spec. -/
def bothData : InitData :=
  { localData with
    Components :=
      some { Etcd := some { Local := some localSpec, External := some externalSpec } } }

/-- A context that sets neither the local nor the external spec. -/
def neitherData : InitData :=
  { localData with Components := some { Etcd := some { Local := none, External := none } } }

/-- A world with a cluster on which nothing was installed and no call made. -/
def freshWorld : World Nat := { cluster := 0, calls := [] }

/-! ## Equations of the run functions -/

theorem installerCalls_append (xs ys : List Call) :
    installerCalls (xs ++ ys) = installerCalls xs + installerCalls ys := by
  simp [installerCalls, List.countP_append]

theorem waiterCalls_append (xs ys : List Call) :
    waiterCalls (xs ++ ys) = waiterCalls xs + waiterCalls ys := by
  simp [waiterCalls, List.countP_append]

theorem waitForSomePodsCalls_append (xs ys : List Call) :
    waitForSomePodsCalls (xs ++ ys) = waitForSomePodsCalls xs + waitForSomePodsCalls ys := by
  simp [waitForSomePodsCalls, List.countP_append]

/-- The message of an error made by `fmtErrorf` contains every piece of text its
lead contains. -/
theorem fmtErrorf_Error_contains (lead : String) (err : GoError) (piece : String)
    (h : piece.toList <:+: lead.toList) :
    piece.toList <:+: (fmtErrorf lead err).Error.toList := by
  have hm : (fmtErrorf lead err).Error.toList = lead.toList ++ err.Error.toList := by
    simp [fmtErrorf, GoError.Error]
  rw [hm]
  exact h.trans (List.infix_append' [] lead.toList err.Error.toList)

/-- With external etcd, `runDeployEtcd` only logs and returns nil. -/
theorem runDeployEtcd_external {σ : Type} (env : Env σ) (w : World σ) (data : InitData)
    (cfg : KarmadaComponents) (etcd : Etcd) (x : ExternalEtcd)
    (hc : data.Components = some cfg) (he : cfg.Etcd = some etcd)
    (hx : etcd.External = some x) :
    runDeployEtcd env (.initData data) w =
      (.ret none,
        { cluster := w.cluster,
          calls := w.calls ++ [.InfoS 2 "[etcd] use external etcd, skip install etcd job"
            "karmada" (.str data.GetName)] }) := by
  simp [runDeployEtcd, hc, he, hx, World.record]

/-- Without external etcd, `runDeployEtcd` calls the installer and ends as the
installer ended: with its panic, with nil, or with its error wrapped. -/
theorem runDeployEtcd_local {σ : Type} (env : Env σ) (w : World σ) (data : InitData)
    (cfg : KarmadaComponents) (etcd : Etcd)
    (hc : data.Components = some cfg) (he : cfg.Etcd = some etcd)
    (hx : etcd.External = none) :
    runDeployEtcd env (.initData data) w =
      (match (env.EnsureKarmadaEtcd w.cluster data.RemoteClient etcd.Local data.GetName
          data.GetNamespace).1 with
        | .ret r => .ret (r.map (fmtErrorf "failed to install etcd component, err: "))
        | .panic msg => .panic msg,
        { cluster := (env.EnsureKarmadaEtcd w.cluster data.RemoteClient etcd.Local
            data.GetName data.GetNamespace).2,
          calls := w.calls ++
            (.EnsureKarmadaEtcd data.RemoteClient etcd.Local data.GetName data.GetNamespace ::
              match (env.EnsureKarmadaEtcd w.cluster data.RemoteClient etcd.Local
                  data.GetName data.GetNamespace).1 with
              | .ret none => [.InfoS 2 "[deploy-etcd] Successfully installed etcd component"
                  "karmada" (.KObj data.GetName data.GetNamespace)]
              | _ => []) }) := by
  simp only [runDeployEtcd, hc, he, hx, World.record]
  rcases hr : (env.EnsureKarmadaEtcd w.cluster data.RemoteClient etcd.Local data.GetName
      data.GetNamespace).1 with (_ | e) | msg <;> simp

/-- On an `InitData` context, `runWaitEtcd` builds the waiter, calls it once and
returns what it returned, wrapped when it is an error. -/
theorem runWaitEtcd_initData {σ : Type} (env : Env σ) (w : World σ) (data : InitData) :
    runWaitEtcd env (.initData data) w =
      (.ret ((env.WaitForSomePods w.cluster
          (NewKarmadaWaiter data.ControlplaneConfig data.RemoteClient
            env.componentBeReadyTimeout)
          env.etcdLabels.String data.GetNamespace 1).1.map
            (fmtErrorf "waiting for karmada-etcd to ready timeout, err: ")),
        { cluster := (env.WaitForSomePods w.cluster
            (NewKarmadaWaiter data.ControlplaneConfig data.RemoteClient
              env.componentBeReadyTimeout)
            env.etcdLabels.String data.GetNamespace 1).2,
          calls := w.calls ++
            (.NewKarmadaWaiter data.ControlplaneConfig data.RemoteClient
                env.componentBeReadyTimeout ::
             .WaitForSomePods
                (NewKarmadaWaiter data.ControlplaneConfig data.RemoteClient
                  env.componentBeReadyTimeout)
                env.etcdLabels.String data.GetNamespace 1 ::
              match (env.WaitForSomePods w.cluster
                  (NewKarmadaWaiter data.ControlplaneConfig data.RemoteClient
                    env.componentBeReadyTimeout)
                  env.etcdLabels.String data.GetNamespace 1).1 with
              | some _ => []
              | none => [.InfoS 2 "[wait-etcd] the etcd pods is ready" "karmada"
                  (.KObj data.GetName data.GetNamespace)]) }) := by
  simp only [runWaitEtcd, World.record]
  cases hr : (env.WaitForSomePods w.cluster
      (NewKarmadaWaiter data.ControlplaneConfig data.RemoteClient
        env.componentBeReadyTimeout)
      env.etcdLabels.String data.GetNamespace 1).1 <;> simp

/-- The executor on the tree of `NewEtcdTask`, unfolded: the parent, then
`deploy-etcd`, then `wait-etcd`, each only after the one before returned nil. -/
theorem Execute_NewEtcdTask {σ : Type} (env : Env σ) (r : RunData) (w : World σ) :
    Execute env NewEtcdTask r w =
      match runEtcd env r w with
      | (.ret none, w1) =>
        match runDeployEtcd env r w1 with
        | (.ret none, w2) =>
          match runWaitEtcd env r w2 with
          | (.ret none, w3) => (.ret none, w3)
          | res => res
        | res => res
      | res => res := by
  simp only [NewEtcdTask, Execute, ExecuteAll]
  rcases h1 : runEtcd env r w with ⟨o1, w1⟩
  rcases o1 with (_ | e1) | p1 <;> simp
  rcases h2 : runDeployEtcd env r w1 with ⟨o2, w2⟩
  rcases o2 with (_ | e2) | p2 <;> simp
  rcases h3 : runWaitEtcd env r w2 with ⟨o3, w3⟩
  rcases o3 with (_ | e3) | p3 <;> simp

/-! ## The claims -/

/-- C1: for every `InitData` context whose `Components().Etcd.External` is
non-nil, `runDeployEtcd` returns nil and makes no call to the installer
`etcd.EnsureKarmadaEtcd`, whatever the installer would answer and whatever the
cluster state and the calls made before: the cluster is left as it was and the
one call added to the record is a log line. -/
theorem C1_external_etcd_skips_install {σ : Type} (env : Env σ) (w : World σ)
    (data : InitData) (cfg : KarmadaComponents) (etcd : Etcd) (x : ExternalEtcd)
    (hc : data.Components = some cfg) (he : cfg.Etcd = some etcd)
    (hx : etcd.External = some x) :
    (runDeployEtcd env (.initData data) w).1 = .ret none ∧
    installerCalls (runDeployEtcd env (.initData data) w).2.calls = installerCalls w.calls ∧
    (runDeployEtcd env (.initData data) w).2.cluster = w.cluster ∧
    (runDeployEtcd env (.initData data) w).2.calls =
      w.calls ++ [.InfoS 2 "[etcd] use external etcd, skip install etcd job" "karmada"
        (.str data.GetName)] := by
  rw [runDeployEtcd_external env w data cfg etcd x hc he hx]
  simp [installerCalls_append, installerCalls]

/-- Witness of C1 on a context with an external etcd, under an installer that
would fail. -/
theorem C1_external_etcd_skips_install_witness :
    (externalData.Components =
        some { Etcd := some { Local := none, External := some externalSpec } } ∧
      (runDeployEtcd failingInstallEnv (.initData externalData) freshWorld).1 = .ret none ∧
      installerCalls
        (runDeployEtcd failingInstallEnv (.initData externalData) freshWorld).2.calls = 0) :=
  have h := C1_external_etcd_skips_install failingInstallEnv freshWorld externalData
    { Etcd := some { Local := none, External := some externalSpec } }
    { Local := none, External := some externalSpec } externalSpec rfl rfl rfl
  ⟨rfl, h.1, h.2.1⟩

/-- C2: on a `RunData` value that is not an `InitData`, each of `runEtcd`,
`runDeployEtcd` and `runWaitEtcd` returns at once an error made by `errors.New`
whose message starts with the name of the task invoked (`etcd`, `deploy-etcd`,
`wait-etcd`), and leaves the world untouched: no installer call, no waiter
call, no call at all. -/
theorem C2_invalid_data_rejected {σ : Type} (env : Env σ) (w : World σ) (r : RunData)
    (h : ∀ data : InitData, r ≠ .initData data) :
    (runEtcd env r w =
        (.ret (some (errorsNew ("etcd" ++ " task invoked with an invalid data struct"))), w) ∧
      runDeployEtcd env r w =
        (.ret (some (errorsNew ("deploy-etcd" ++ " task invoked with an invalid data struct"))),
          w) ∧
      runWaitEtcd env r w =
        (.ret (some (errorsNew ("wait-etcd" ++ " task invoked with an invalid data struct"))),
          w)) ∧
    (installerCalls (runEtcd env r w).2.calls = installerCalls w.calls ∧
      installerCalls (runDeployEtcd env r w).2.calls = installerCalls w.calls ∧
      installerCalls (runWaitEtcd env r w).2.calls = installerCalls w.calls) ∧
    (waiterCalls (runEtcd env r w).2.calls = waiterCalls w.calls ∧
      waiterCalls (runDeployEtcd env r w).2.calls = waiterCalls w.calls ∧
      waiterCalls (runWaitEtcd env r w).2.calls = waiterCalls w.calls) := by
  cases r with
  | initData data => exact absurd rfl (h data)
  | other tag =>
    have e1 : "etcd" ++ " task invoked with an invalid data struct" =
        "etcd task invoked with an invalid data struct" := by decide
    have e2 : "deploy-etcd" ++ " task invoked with an invalid data struct" =
        "deploy-etcd task invoked with an invalid data struct" := by decide
    have e3 : "wait-etcd" ++ " task invoked with an invalid data struct" =
        "wait-etcd task invoked with an invalid data struct" := by decide
    simp only [e1, e2, e3, runEtcd, runDeployEtcd, runWaitEtcd]
    simp

/-- Witness of C2 on a value that is no `InitData`. -/
theorem C2_invalid_data_rejected_witness :
    (∀ data : InitData, RunData.other "JoinData" ≠ .initData data) ∧
    runDeployEtcd goodEnv (.other "JoinData") freshWorld =
      (.ret (some (errorsNew "deploy-etcd task invoked with an invalid data struct")),
        freshWorld) :=
  ⟨fun _ hne => RunData.noConfusion hne,
    (C2_invalid_data_rejected goodEnv freshWorld (.other "JoinData")
      (fun _ hne => RunData.noConfusion hne)).1.2.1⟩

/-- C3: on an `InitData` context with `Etcd.External` nil, when the installer
returns an error `e`, `runDeployEtcd` returns a non-nil error that wraps `e`
(unwrapping yields exactly `e`) and whose message is
`failed to install etcd component, err: ` followed by the message of `e`; the
message so names the etcd component. -/
theorem C3_install_error_wrapped {σ : Type} (env : Env σ) (w : World σ)
    (data : InitData) (cfg : KarmadaComponents) (etcd : Etcd) (e : GoError)
    (hc : data.Components = some cfg) (he : cfg.Etcd = some etcd)
    (hx : etcd.External = none)
    (hfail : (env.EnsureKarmadaEtcd w.cluster data.RemoteClient etcd.Local data.GetName
      data.GetNamespace).1 = .ret (some e)) :
    ∃ err : GoError,
      (runDeployEtcd env (.initData data) w).1 = .ret (some err) ∧
      err.Unwrap = some e ∧
      err.Error = "failed to install etcd component, err: " ++ e.Error ∧
      "etcd component".toList <:+: err.Error.toList := by
  refine ⟨fmtErrorf "failed to install etcd component, err: " e, ?_, rfl, rfl, ?_⟩
  · rw [runDeployEtcd_local env w data cfg etcd hc he hx, hfail]
    rfl
  · exact fmtErrorf_Error_contains _ _ _ (by decide)

/-- Witness of C3 on a local context whose installer answers
`connection refused`. -/
theorem C3_install_error_wrapped_witness :
    (failingInstallEnv.EnsureKarmadaEtcd freshWorld.cluster localData.RemoteClient
        (some localSpec) localData.GetName localData.GetNamespace).1 =
      .ret (some (errorsNew "connection refused")) ∧
    ∃ err : GoError,
      (runDeployEtcd failingInstallEnv (.initData localData) freshWorld).1 = .ret (some err) ∧
      err.Unwrap = some (errorsNew "connection refused") ∧
      err.Error =
        "failed to install etcd component, err: " ++ (errorsNew "connection refused").Error ∧
      "etcd component".toList <:+: err.Error.toList :=
  ⟨rfl, C3_install_error_wrapped failingInstallEnv freshWorld localData
    { Etcd := some { Local := some localSpec, External := none } }
    { Local := some localSpec, External := none } (errorsNew "connection refused")
    rfl rfl rfl rfl⟩

/-- C4, as stated, fails: with a deadline of two minutes (`120 * Second`, which Go
prints `2m0s`) and a waiter that gives up with `context deadline exceeded`, the
message of the error `runWaitEtcd` returns is
`waiting for karmada-etcd to ready timeout, err: context deadline exceeded`.
It holds no digit, so it contains neither `2m0s` nor `120` nor any other text
with a digit in it: the configured deadline is not in the message. -/
theorem C4_deadline_not_in_message :
    timedOutEnv.componentBeReadyTimeout = 120 * Second ∧
    (timedOutEnv.WaitForSomePods freshWorld.cluster
        (NewKarmadaWaiter localData.ControlplaneConfig localData.RemoteClient
          timedOutEnv.componentBeReadyTimeout)
        timedOutEnv.etcdLabels.String localData.GetNamespace 1).1 =
      some (errorsNew "context deadline exceeded") ∧
    ∃ err : GoError,
      (runWaitEtcd timedOutEnv (.initData localData) freshWorld).1 = .ret (some err) ∧
      err.Error = "waiting for karmada-etcd to ready timeout, err: context deadline exceeded" ∧
      ¬ ("2m0s".toList <:+: err.Error.toList) ∧
      ¬ ("120".toList <:+: err.Error.toList) ∧
      ∀ text : String, text.toList.any Char.isDigit = true →
        ¬ (text.toList <:+: err.Error.toList) := by
  have hnone : ∀ c ∈ "waiting for karmada-etcd to ready timeout, err: context deadline exceeded".toList,
      Char.isDigit c = false := by decide
  have hall : ∀ text : String, text.toList.any Char.isDigit = true →
      ¬ (text.toList <:+:
        "waiting for karmada-etcd to ready timeout, err: context deadline exceeded".toList) := by
    intro text hd hin
    obtain ⟨c, hc, hdc⟩ := List.any_eq_true.mp hd
    have := hnone c (hin.subset hc)
    simp [this] at hdc
  refine ⟨rfl, rfl, _, rfl, rfl, ?_, ?_, hall⟩
  · exact hall "2m0s" (by decide)
  · exact hall "120" (by decide)

/-- C4, amended: on an `InitData` context, when the waiter returns an error `e`,
`runWaitEtcd` returns an error that wraps `e` and whose message is
`waiting for karmada-etcd to ready timeout, err: ` followed by the message of
`e`.  The message names the component `karmada-etcd`; of the deadline it holds
only what the message of `e` holds. -/
theorem C4_wait_error_names_component {σ : Type} (env : Env σ) (w : World σ)
    (data : InitData) (e : GoError)
    (hfail : (env.WaitForSomePods w.cluster
        (NewKarmadaWaiter data.ControlplaneConfig data.RemoteClient
          env.componentBeReadyTimeout)
        env.etcdLabels.String data.GetNamespace 1).1 = some e) :
    ∃ err : GoError,
      (runWaitEtcd env (.initData data) w).1 = .ret (some err) ∧
      err.Unwrap = some e ∧
      err.Error = "waiting for karmada-etcd to ready timeout, err: " ++ e.Error ∧
      "karmada-etcd".toList <:+: err.Error.toList := by
  refine ⟨fmtErrorf "waiting for karmada-etcd to ready timeout, err: " e, ?_, rfl, rfl, ?_⟩
  · rw [runWaitEtcd_initData env w data, hfail]
    rfl
  · exact fmtErrorf_Error_contains _ _ _ (by decide)

/-- Witness of the amended C4 on a waiter that gives up at its deadline. -/
theorem C4_wait_error_names_component_witness :
    (timedOutEnv.WaitForSomePods freshWorld.cluster
        (NewKarmadaWaiter localData.ControlplaneConfig localData.RemoteClient
          timedOutEnv.componentBeReadyTimeout)
        timedOutEnv.etcdLabels.String localData.GetNamespace 1).1 =
      some (errorsNew "context deadline exceeded") ∧
    ∃ err : GoError,
      (runWaitEtcd timedOutEnv (.initData localData) freshWorld).1 = .ret (some err) ∧
      err.Unwrap = some (errorsNew "context deadline exceeded") ∧
      err.Error = "waiting for karmada-etcd to ready timeout, err: " ++
        (errorsNew "context deadline exceeded").Error ∧
      "karmada-etcd".toList <:+: err.Error.toList :=
  ⟨rfl, C4_wait_error_names_component timedOutEnv freshWorld localData
    (errorsNew "context deadline exceeded") rfl⟩

/-- C5: the executor run on the tree of `NewEtcdTask`, on an `InitData` context
with `Etcd.External` nil and an installer that returns an error `e`: the result
at the root is exactly the wrapped error `runDeployEtcd` produces for `e`, the
final world is the one `runDeployEtcd` left, and `wait-etcd` never ran: the
record gained the log line of `runEtcd` and the installer call, nothing else,
so no waiter was built or called. -/
theorem C5_install_failure_stops_tree {σ : Type} (env : Env σ) (w : World σ)
    (data : InitData) (cfg : KarmadaComponents) (etcd : Etcd) (e : GoError)
    (hc : data.Components = some cfg) (he : cfg.Etcd = some etcd)
    (hx : etcd.External = none)
    (hfail : (env.EnsureKarmadaEtcd w.cluster data.RemoteClient etcd.Local data.GetName
      data.GetNamespace).1 = .ret (some e)) :
    (Execute env NewEtcdTask (.initData data) w).1 =
      .ret (some (fmtErrorf "failed to install etcd component, err: " e)) ∧
    Execute env NewEtcdTask (.initData data) w =
      runDeployEtcd env (.initData data) (runEtcd env (.initData data) w).2 ∧
    waiterCalls (Execute env NewEtcdTask (.initData data) w).2.calls = waiterCalls w.calls ∧
    (Execute env NewEtcdTask (.initData data) w).2.calls =
      w.calls ++
        [.InfoS 4 "[etcd] Running etcd task" "karmada" (.KObj data.GetName data.GetNamespace),
         .EnsureKarmadaEtcd data.RemoteClient etcd.Local data.GetName data.GetNamespace] := by
  have hrun : runEtcd env (.initData data) w =
      (.ret none, w.record (.InfoS 4 "[etcd] Running etcd task" "karmada"
        (.KObj data.GetName data.GetNamespace))) := rfl
  have hdep := runDeployEtcd_local env
    (w.record (.InfoS 4 "[etcd] Running etcd task" "karmada"
      (.KObj data.GetName data.GetNamespace))) data cfg etcd hc he hx
  have hcl : (w.record (.InfoS 4 "[etcd] Running etcd task" "karmada"
      (.KObj data.GetName data.GetNamespace))).cluster = w.cluster := rfl
  rw [hcl, hfail] at hdep
  rw [Execute_NewEtcdTask, hrun]
  simp only [hdep, Option.map]
  simp [World.record, waiterCalls_append, waiterCalls]

/-- Witness of C5 on a local context whose installer answers
`connection refused`. -/
theorem C5_install_failure_stops_tree_witness :
    (failingInstallEnv.EnsureKarmadaEtcd freshWorld.cluster localData.RemoteClient
        (some localSpec) localData.GetName localData.GetNamespace).1 =
      .ret (some (errorsNew "connection refused")) ∧
    (Execute failingInstallEnv NewEtcdTask (.initData localData) freshWorld).1 =
      .ret (some (fmtErrorf "failed to install etcd component, err: "
        (errorsNew "connection refused"))) ∧
    waiterCalls (Execute failingInstallEnv NewEtcdTask (.initData localData) freshWorld).2.calls
      = waiterCalls freshWorld.calls :=
  have h := C5_install_failure_stops_tree failingInstallEnv freshWorld localData
    { Etcd := some { Local := some localSpec, External := none } }
    { Local := some localSpec, External := none } (errorsNew "connection refused")
    rfl rfl rfl rfl
  ⟨rfl, h.1, h.2.2.1⟩

/-- C6: on an `InitData` context with `Etcd.External` nil, `runDeployEtcd` calls
the installer exactly once, with the remote client, `Etcd.Local`, the name and
the namespace of the context, unchanged, and it returns nil if and only if that
call returned nil.  It ends as that call ended: it returns exactly when the
call returned, and it panics, with the same message, exactly when the call
panicked.  The cluster is left as the installer left it. -/
theorem C6_local_etcd_calls_installer_once {σ : Type} (env : Env σ) (w : World σ)
    (data : InitData) (cfg : KarmadaComponents) (etcd : Etcd)
    (hc : data.Components = some cfg) (he : cfg.Etcd = some etcd)
    (hx : etcd.External = none) :
    (∃ rest : List Call,
      (runDeployEtcd env (.initData data) w).2.calls =
        w.calls ++
          [.EnsureKarmadaEtcd data.RemoteClient etcd.Local data.GetName data.GetNamespace] ++
          rest ∧
      installerCalls rest = 0) ∧
    installerCalls (runDeployEtcd env (.initData data) w).2.calls = installerCalls w.calls + 1 ∧
    ((runDeployEtcd env (.initData data) w).1 = .ret none ↔
      (env.EnsureKarmadaEtcd w.cluster data.RemoteClient etcd.Local data.GetName
        data.GetNamespace).1 = .ret none) ∧
    ((∃ r : error, (runDeployEtcd env (.initData data) w).1 = .ret r) ↔
      ∃ r : error, (env.EnsureKarmadaEtcd w.cluster data.RemoteClient etcd.Local data.GetName
        data.GetNamespace).1 = .ret r) ∧
    (∀ msg : String, (runDeployEtcd env (.initData data) w).1 = .panic msg ↔
      (env.EnsureKarmadaEtcd w.cluster data.RemoteClient etcd.Local data.GetName
        data.GetNamespace).1 = .panic msg) ∧
    (runDeployEtcd env (.initData data) w).2.cluster =
      (env.EnsureKarmadaEtcd w.cluster data.RemoteClient etcd.Local data.GetName
        data.GetNamespace).2 := by
  rw [runDeployEtcd_local env w data cfg etcd hc he hx]
  rcases hr : (env.EnsureKarmadaEtcd w.cluster data.RemoteClient etcd.Local data.GetName
      data.GetNamespace).1 with (_ | e) | msg <;>
    simp [installerCalls_append, installerCalls]

/-- Witness of C6.  On a local context with a succeeding installer the installer
is called once and `runDeployEtcd` returns nil.  On a context with neither spec
set, under an installer that panics on a nil spec, the installer is still
called once and `runDeployEtcd` ends with that panic. -/
theorem C6_local_etcd_calls_installer_once_witness :
    (localData.Components =
        some { Etcd := some { Local := some localSpec, External := none } } ∧
      installerCalls (runDeployEtcd goodEnv (.initData localData) freshWorld).2.calls =
        installerCalls freshWorld.calls + 1 ∧
      (runDeployEtcd goodEnv (.initData localData) freshWorld).1 = .ret none) ∧
    (neitherData.Components = some { Etcd := some { Local := none, External := none } } ∧
      installerCalls (runDeployEtcd nilSpecPanicEnv (.initData neitherData) freshWorld).2.calls =
        installerCalls freshWorld.calls + 1 ∧
      (runDeployEtcd nilSpecPanicEnv (.initData neitherData) freshWorld).1 =
        .panic nilDereference) :=
  have h := C6_local_etcd_calls_installer_once goodEnv freshWorld localData
    { Etcd := some { Local := some localSpec, External := none } }
    { Local := some localSpec, External := none } rfl rfl rfl
  have k := C6_local_etcd_calls_installer_once nilSpecPanicEnv freshWorld neitherData
    { Etcd := some { Local := none, External := none } }
    { Local := none, External := none } rfl rfl rfl
  ⟨⟨rfl, h.2.1, h.2.2.1.mpr rfl⟩, ⟨rfl, k.2.1, (k.2.2.2.2.1 nilDereference).mpr rfl⟩⟩

/-- C7: on every `InitData` context, `runWaitEtcd` builds the waiter from the
control-plane config and the remote client of the context and the timeout
`componentBeReadyTimeout`, and calls `WaitForSomePods` exactly once, with the
label selector `etcdLabels.String()`, the namespace of the context and the
minimum ready count 1.  It returns (it does not panic), and it returns nil if
and only if that call returned nil.  Hence, under any waiter that succeeds
whenever the ready pods reach the count it is asked for, one ready etcd pod
makes `runWaitEtcd` succeed, whatever replica count the context asks for. -/
theorem C7_wait_calls_waiter_once_min_one {σ : Type} (env : Env σ) (w : World σ)
    (data : InitData) :
    (∃ rest : List Call,
      (runWaitEtcd env (.initData data) w).2.calls =
        w.calls ++
          [.NewKarmadaWaiter data.ControlplaneConfig data.RemoteClient
             env.componentBeReadyTimeout,
           .WaitForSomePods
             (NewKarmadaWaiter data.ControlplaneConfig data.RemoteClient
               env.componentBeReadyTimeout)
             env.etcdLabels.String data.GetNamespace 1] ++
          rest ∧
      waiterCalls rest = 0) ∧
    waitForSomePodsCalls (runWaitEtcd env (.initData data) w).2.calls =
      waitForSomePodsCalls w.calls + 1 ∧
    (∃ r : error, (runWaitEtcd env (.initData data) w).1 = .ret r) ∧
    ((runWaitEtcd env (.initData data) w).1 = .ret none ↔
      (env.WaitForSomePods w.cluster
        (NewKarmadaWaiter data.ControlplaneConfig data.RemoteClient
          env.componentBeReadyTimeout)
        env.etcdLabels.String data.GetNamespace 1).1 = none) ∧
    (∀ readyPods : σ → String → String → Int,
      (∀ (c : σ) (waiter : KarmadaWaiter) (label ns : String) (podNum : Int),
        podNum ≤ readyPods c label ns →
          (env.WaitForSomePods c waiter label ns podNum).1 = none) →
      1 ≤ readyPods w.cluster env.etcdLabels.String data.GetNamespace →
      (runWaitEtcd env (.initData data) w).1 = .ret none) := by
  rw [runWaitEtcd_initData env w data]
  refine ⟨?_, ?_, ?_, ?_, ?_⟩
  · cases hr : (env.WaitForSomePods w.cluster
        (NewKarmadaWaiter data.ControlplaneConfig data.RemoteClient
          env.componentBeReadyTimeout)
        env.etcdLabels.String data.GetNamespace 1).1 <;>
      simp [waiterCalls]
  · cases hr : (env.WaitForSomePods w.cluster
        (NewKarmadaWaiter data.ControlplaneConfig data.RemoteClient
          env.componentBeReadyTimeout)
        env.etcdLabels.String data.GetNamespace 1).1 <;>
      simp [waitForSomePodsCalls_append, waitForSomePodsCalls]
  · exact ⟨_, rfl⟩
  · cases hr : (env.WaitForSomePods w.cluster
        (NewKarmadaWaiter data.ControlplaneConfig data.RemoteClient
          env.componentBeReadyTimeout)
        env.etcdLabels.String data.GetNamespace 1).1 <;>
      simp
  · intro readyPods hwaiter hready
    simp [hwaiter w.cluster _ _ _ 1 hready]

/-- Witness of C7: a waiter that succeeds exactly when the ready pods (here the
number of installs applied to the cluster) reach the count asked for, a cluster
with one ready pod, and a context that asks for three replicas. -/
theorem C7_wait_calls_waiter_once_min_one_witness :
    localSpec.Replicas = some 3 ∧
    (runWaitEtcd
      { goodEnv with
        WaitForSomePods := fun c _ _ _ podNum =>
          (if podNum ≤ (c : Int) then none else some (errorsNew "context deadline exceeded"),
            c) }
      (.initData localData) { cluster := 1, calls := [] }).1 = .ret none :=
  ⟨rfl,
    (C7_wait_calls_waiter_once_min_one
      { goodEnv with
        WaitForSomePods := fun c _ _ _ podNum =>
          (if podNum ≤ (c : Int) then none else some (errorsNew "context deadline exceeded"),
            c) }
      { cluster := 1, calls := [] } localData).2.2.2.2
      (fun c _ _ => (c : Int))
      (fun c _ _ _ podNum h => by simp [h])
      (by decide)⟩

/-- C8: the task `NewEtcdTask` returns is named `Etcd`, runs `runEtcd`, has
`RunSubTasks` set, and has exactly two children, in this order: `deploy-etcd`
bound to `runDeployEtcd` and `wait-etcd` bound to `runWaitEtcd`, neither with
children or `RunSubTasks` of its own.  So the tree has the shape the data model
asks for (`RunSubTasks` set implies a child), and install is declared before
wait. -/
theorem C8_NewEtcdTask_shape {σ : Type} :
    (NewEtcdTask : Task σ).Name = "Etcd" ∧
    (NewEtcdTask : Task σ).Run = runEtcd ∧
    (NewEtcdTask : Task σ).RunSubTasks = true ∧
    (NewEtcdTask : Task σ).Tasks.length = 2 ∧
    (NewEtcdTask : Task σ).Tasks.map Task.Name = ["deploy-etcd", "wait-etcd"] ∧
    (NewEtcdTask : Task σ).Tasks.map Task.Run = [runDeployEtcd, runWaitEtcd] ∧
    (NewEtcdTask : Task σ).Tasks.map Task.Tasks = [[], []] ∧
    (NewEtcdTask : Task σ).Tasks.map Task.RunSubTasks = [false, false] ∧
    ((NewEtcdTask : Task σ).RunSubTasks = true → (NewEtcdTask : Task σ).Tasks ≠ []) ∧
    (NewEtcdTask : Task σ).shapeOk = true := by
  refine ⟨rfl, rfl, rfl, rfl, rfl, rfl, rfl, rfl, ?_, ?_⟩
  · intro _ h
    exact List.noConfusion h
  · simp [NewEtcdTask, Task.shapeOk, Task.shapeOkAll]

/-- C9: whether `runDeployEtcd` skips or installs depends only on whether
`Etcd.External` is nil, never on `Etcd.Local`: the installer is called (once)
exactly when `External` is nil, so of two `InitData` contexts that agree on the
nil-ness of `External` it is called in both or in neither.  When both
`External` and `Local` are set the step is skipped; when both are nil the
installer is still called, with a nil `Local` spec. -/
theorem C9_decision_depends_on_external_only {σ τ : Type} (env₁ : Env σ) (env₂ : Env τ)
    (w₁ : World σ) (w₂ : World τ) (d₁ d₂ : InitData) (cfg₁ cfg₂ : KarmadaComponents)
    (e₁ e₂ : Etcd)
    (hc₁ : d₁.Components = some cfg₁) (he₁ : cfg₁.Etcd = some e₁)
    (hc₂ : d₂.Components = some cfg₂) (he₂ : cfg₂.Etcd = some e₂)
    (hagree : e₁.External = none ↔ e₂.External = none) :
    (installerCalls (runDeployEtcd env₁ (.initData d₁) w₁).2.calls = installerCalls w₁.calls + 1
      ↔ installerCalls (runDeployEtcd env₂ (.initData d₂) w₂).2.calls
          = installerCalls w₂.calls + 1) ∧
    (installerCalls (runDeployEtcd env₁ (.initData d₁) w₁).2.calls = installerCalls w₁.calls
      ↔ installerCalls (runDeployEtcd env₂ (.initData d₂) w₂).2.calls
          = installerCalls w₂.calls) ∧
    (installerCalls (runDeployEtcd env₁ (.initData d₁) w₁).2.calls = installerCalls w₁.calls + 1
      ↔ e₁.External = none) ∧
    (installerCalls (runDeployEtcd env₁ (.initData d₁) w₁).2.calls = installerCalls w₁.calls
      ↔ e₁.External ≠ none) ∧
    (∀ (l : LocalEtcd) (x : ExternalEtcd), e₁.Local = some l → e₁.External = some x →
      (runDeployEtcd env₁ (.initData d₁) w₁).1 = .ret none ∧
      installerCalls (runDeployEtcd env₁ (.initData d₁) w₁).2.calls
        = installerCalls w₁.calls) ∧
    (e₁.Local = none → e₁.External = none →
      ∃ rest : List Call,
        (runDeployEtcd env₁ (.initData d₁) w₁).2.calls =
          w₁.calls ++ [.EnsureKarmadaEtcd d₁.RemoteClient none d₁.GetName d₁.GetNamespace] ++
            rest) := by
  have key : ∀ {ρ : Type} (env : Env ρ) (w : World ρ) (d : InitData) (cfg : KarmadaComponents)
      (e : Etcd), d.Components = some cfg → cfg.Etcd = some e →
      (installerCalls (runDeployEtcd env (.initData d) w).2.calls = installerCalls w.calls + 1
        ↔ e.External = none) ∧
      (installerCalls (runDeployEtcd env (.initData d) w).2.calls = installerCalls w.calls
        ↔ e.External ≠ none) := by
    intro ρ env w d cfg e hc he
    cases hx : e.External with
    | none =>
      rw [runDeployEtcd_local env w d cfg e hc he hx]
      rcases hr : (env.EnsureKarmadaEtcd w.cluster d.RemoteClient e.Local d.GetName
          d.GetNamespace).1 with (_ | err) | msg <;>
        simp [installerCalls_append, installerCalls]
    | some x =>
      rw [runDeployEtcd_external env w d cfg e x hc he hx]
      simp [installerCalls_append, installerCalls]
  have k₁ := key env₁ w₁ d₁ cfg₁ e₁ hc₁ he₁
  have k₂ := key env₂ w₂ d₂ cfg₂ e₂ hc₂ he₂
  refine ⟨?_, ?_, k₁.1, k₁.2, ?_, ?_⟩
  · rw [k₁.1, k₂.1]
    exact hagree
  · rw [k₁.2, k₂.2]
    exact not_congr hagree
  · intro l x _ hx
    rw [runDeployEtcd_external env₁ w₁ d₁ cfg₁ e₁ x hc₁ he₁ hx]
    simp [installerCalls_append, installerCalls]
  · intro hl hx
    rw [runDeployEtcd_local env₁ w₁ d₁ cfg₁ e₁ hc₁ he₁ hx, hl]
    exact ⟨match (env₁.EnsureKarmadaEtcd w₁.cluster d₁.RemoteClient none d₁.GetName
        d₁.GetNamespace).1 with
      | .ret none => [.InfoS 2 "[deploy-etcd] Successfully installed etcd component" "karmada"
          (.KObj d₁.GetName d₁.GetNamespace)]
      | _ => [], by simp⟩

/-- Witness of C9.  A context with neither spec set and a context with only the
local spec set agree on `External` being nil: the installer is called in the
first, with a nil `Local` spec.  A context with both specs set and a context
with only the external spec set agree on `External` being set: the first skips
the install. -/
theorem C9_decision_depends_on_external_only_witness :
    (((none : Option ExternalEtcd) = none ↔ (none : Option ExternalEtcd) = none) ∧
      installerCalls (runDeployEtcd goodEnv (.initData neitherData) freshWorld).2.calls
        = installerCalls freshWorld.calls + 1 ∧
      ∃ rest : List Call,
        (runDeployEtcd goodEnv (.initData neitherData) freshWorld).2.calls =
          freshWorld.calls ++
            [.EnsureKarmadaEtcd neitherData.RemoteClient none neitherData.GetName
              neitherData.GetNamespace] ++ rest) ∧
    ((some externalSpec = none ↔ some externalSpec = none) ∧
      (runDeployEtcd goodEnv (.initData bothData) freshWorld).1 = .ret none ∧
      installerCalls (runDeployEtcd goodEnv (.initData bothData) freshWorld).2.calls
        = installerCalls freshWorld.calls) :=
  have h := C9_decision_depends_on_external_only goodEnv failingInstallEnv freshWorld
    freshWorld neitherData localData
    { Etcd := some { Local := none, External := none } }
    { Etcd := some { Local := some localSpec, External := none } }
    { Local := none, External := none } { Local := some localSpec, External := none }
    rfl rfl rfl rfl Iff.rfl
  have k := C9_decision_depends_on_external_only goodEnv failingInstallEnv freshWorld
    freshWorld bothData externalData
    { Etcd := some { Local := some localSpec, External := some externalSpec } }
    { Etcd := some { Local := none, External := some externalSpec } }
    { Local := some localSpec, External := some externalSpec }
    { Local := none, External := some externalSpec }
    rfl rfl rfl rfl Iff.rfl
  ⟨⟨Iff.rfl, h.2.2.1.mpr rfl, h.2.2.2.2.2 rfl rfl⟩,
    ⟨Iff.rfl, k.2.2.2.2.1 localSpec externalSpec rfl rfl⟩⟩

/-- The executor on the tree of `NewEtcdTask`, on a context with external etcd:
the parent logs, `deploy-etcd` logs that it skips, and the result is that of
`wait-etcd` run on the world those two left. -/
theorem Execute_NewEtcdTask_external {σ : Type} (env : Env σ) (w : World σ)
    (data : InitData) (cfg : KarmadaComponents) (etcd : Etcd) (x : ExternalEtcd)
    (hc : data.Components = some cfg) (he : cfg.Etcd = some etcd)
    (hx : etcd.External = some x) :
    Execute env NewEtcdTask (.initData data) w =
      runWaitEtcd env (.initData data)
        { cluster := w.cluster,
          calls := w.calls ++
            [.InfoS 4 "[etcd] Running etcd task" "karmada"
               (.KObj data.GetName data.GetNamespace),
             .InfoS 2 "[etcd] use external etcd, skip install etcd job" "karmada"
               (.str data.GetName)] } := by
  have hrun : runEtcd env (.initData data) w =
      (.ret none, w.record (.InfoS 4 "[etcd] Running etcd task" "karmada"
        (.KObj data.GetName data.GetNamespace))) := rfl
  rw [Execute_NewEtcdTask, hrun]
  simp only [runDeployEtcd_external env _ data cfg etcd x hc he hx, World.record,
    List.append_assoc, List.singleton_append]
  rcases h3 : runWaitEtcd env (.initData data)
    { cluster := w.cluster,
      calls := w.calls ++
        [.InfoS 4 "[etcd] Running etcd task" "karmada"
           (.KObj data.GetName data.GetNamespace),
         .InfoS 2 "[etcd] use external etcd, skip install etcd job" "karmada"
           (.str data.GetName)] } with ⟨o3, w3⟩
  rcases o3 with (_ | e3) | p3 <;> rfl

/-- C10: `runWaitEtcd` never consults the component spec.  On every `InitData`
context it calls `WaitForSomePods` exactly once, its result is what the waiter
returned (nil for nil, the wrapped error for an error), and it is the same
whatever `Components()` is.  So the executor run on the tree of `NewEtcdTask`,
on a context with external etcd, makes no installer call but still makes the
one call that waits for the etcd pods, and the result of the tree is the result
of `runWaitEtcd`. -/
theorem C10_wait_ignores_component_spec {σ : Type} (env : Env σ) (w : World σ)
    (data : InitData) :
    (runWaitEtcd env (.initData data) w).1 =
      .ret ((env.WaitForSomePods w.cluster
        (NewKarmadaWaiter data.ControlplaneConfig data.RemoteClient
          env.componentBeReadyTimeout)
        env.etcdLabels.String data.GetNamespace 1).1.map
          (fmtErrorf "waiting for karmada-etcd to ready timeout, err: ")) ∧
    waitForSomePodsCalls (runWaitEtcd env (.initData data) w).2.calls =
      waitForSomePodsCalls w.calls + 1 ∧
    (∀ comps : Option KarmadaComponents,
      runWaitEtcd env (.initData { data with Components := comps }) w =
        runWaitEtcd env (.initData data) w) ∧
    (∀ (cfg : KarmadaComponents) (etcd : Etcd) (x : ExternalEtcd),
      data.Components = some cfg → cfg.Etcd = some etcd → etcd.External = some x →
      installerCalls (Execute env NewEtcdTask (.initData data) w).2.calls =
        installerCalls w.calls ∧
      waitForSomePodsCalls (Execute env NewEtcdTask (.initData data) w).2.calls =
        waitForSomePodsCalls w.calls + 1 ∧
      Execute env NewEtcdTask (.initData data) w =
        runWaitEtcd env (.initData data)
          (runDeployEtcd env (.initData data) (runEtcd env (.initData data) w).2).2 ∧
      (Execute env NewEtcdTask (.initData data) w).1 =
        (runWaitEtcd env (.initData data) w).1 ∧
      (Execute env NewEtcdTask (.initData data) w).2.cluster =
        (runWaitEtcd env (.initData data) w).2.cluster) := by
  refine ⟨?_, ?_, ?_, ?_⟩
  · rw [runWaitEtcd_initData env w data]
  · rw [runWaitEtcd_initData env w data]
    cases hr : (env.WaitForSomePods w.cluster
        (NewKarmadaWaiter data.ControlplaneConfig data.RemoteClient
          env.componentBeReadyTimeout)
        env.etcdLabels.String data.GetNamespace 1).1 <;>
      simp [waitForSomePodsCalls_append, waitForSomePodsCalls]
  · intro comps
    rfl
  · intro cfg etcd x hc he hx
    have hrun : runEtcd env (.initData data) w =
        (.ret none, w.record (.InfoS 4 "[etcd] Running etcd task" "karmada"
          (.KObj data.GetName data.GetNamespace))) := rfl
    have hdep : (runDeployEtcd env (.initData data) (runEtcd env (.initData data) w).2).2 =
        { cluster := w.cluster,
          calls := w.calls ++
            [.InfoS 4 "[etcd] Running etcd task" "karmada"
               (.KObj data.GetName data.GetNamespace),
             .InfoS 2 "[etcd] use external etcd, skip install etcd job" "karmada"
               (.str data.GetName)] } := by
      rw [hrun, runDeployEtcd_external env _ data cfg etcd x hc he hx]
      simp [World.record]
    rw [hdep, Execute_NewEtcdTask_external env w data cfg etcd x hc he hx,
      runWaitEtcd_initData env w data, runWaitEtcd_initData env _ data]
    refine ⟨?_, ?_, rfl, rfl, rfl⟩
    · cases hr : (env.WaitForSomePods w.cluster
          (NewKarmadaWaiter data.ControlplaneConfig data.RemoteClient
            env.componentBeReadyTimeout)
          env.etcdLabels.String data.GetNamespace 1).1 <;>
        simp [installerCalls_append, installerCalls]
    · cases hr : (env.WaitForSomePods w.cluster
          (NewKarmadaWaiter data.ControlplaneConfig data.RemoteClient
            env.componentBeReadyTimeout)
          env.etcdLabels.String data.GetNamespace 1).1 <;>
        simp [waitForSomePodsCalls_append, waitForSomePodsCalls]

/-- Witness of C10 on a context with external etcd and a waiter that gives up:
the tree makes no installer call, waits once, and fails with the error of
`runWaitEtcd`. -/
theorem C10_wait_ignores_component_spec_witness :
    externalData.Components =
      some { Etcd := some { Local := none, External := some externalSpec } } ∧
    installerCalls (Execute timedOutEnv NewEtcdTask (.initData externalData) freshWorld).2.calls
      = installerCalls freshWorld.calls ∧
    waitForSomePodsCalls
        (Execute timedOutEnv NewEtcdTask (.initData externalData) freshWorld).2.calls
      = waitForSomePodsCalls freshWorld.calls + 1 ∧
    (Execute timedOutEnv NewEtcdTask (.initData externalData) freshWorld).1 =
      (runWaitEtcd timedOutEnv (.initData externalData) freshWorld).1 :=
  have h := (C10_wait_ignores_component_spec timedOutEnv freshWorld externalData).2.2.2
    { Etcd := some { Local := none, External := some externalSpec } }
    { Local := none, External := some externalSpec } externalSpec rfl rfl rfl
  ⟨rfl, h.1, h.2.1, h.2.2.2.1⟩

end Karmada
